/-
Verification development for the `mbbs` bridge program.

The program (src/main.rs) connects to a Meshtastic radio over BLE, loads a
JSON snapshot of its `Storage` (a user directory plus per-key statistics),
then loops over decoded radio events: `NodeInfo` events update the user
directory, `Packet` events compute an info label, update the statistics,
print a network line and rewrite the snapshot file.

This file gives a shallow embedding of that program and proves properties
of it.  External boundaries (the BLE transport, the protobuf `User` decoder,
UTF-8 decoding by `String::from_utf8`, JSON (de)serialisation by serde, the
file system and the clock) are modelled as explicit parameters or oracles:
the embedding quantifies over their outcomes.  Rust `u32` arithmetic is
modelled as `Nat` with reduction modulo `2 ^ 32` where the program adds.
-/
import Mathlib

namespace Mbbs

/-- Modulus of Rust's `u32` type; `entry.0 += 1` in `Storage::insert_stat`
wraps at this bound (release-mode semantics). -/
def u32Mod : Nat := 4294967296

/-- The fields of the protobuf `User` record that the program reads or
stores.  Only `long_name` is ever inspected; `id` and `short_name` stand in
for the rest of the record so that an upsert is a whole-record replace. -/
structure User where
  id : String
  long_name : String
  short_name : String
  deriving DecidableEq, Repr

/-- The directory `users: HashMap<u32, User>`, modelled as an association
list with unique keys.  Only `get` and `insert` are used by the program. -/
abbrev UsersMap := List (Nat × User)

/-- `users.get(&user_id)` on the association-list model. -/
def lookupUser (n : Nat) : UsersMap → Option User
  | [] => none
  | (k, u) :: rest => if k = n then some u else lookupUser n rest

/-- `users.insert(k, u)`: replaces the binding for `k` if present, else adds
it. -/
def insertUser (n : Nat) (u : User) : UsersMap → UsersMap
  | [] => [(n, u)]
  | (k, v) :: rest => if k = n then (n, u) :: rest else (k, v) :: insertUser n u rest

/-- The statistics `stats: BTreeMap<String, (u32, u64)>`, modelled as an
association list with unique keys; its iteration order is only used for
printing, which no property here depends on. -/
abbrev StatsMap := List (String × (Nat × Nat))

/-- `stats.get(&key)` on the association-list model. -/
def lookupStat (key : String) : StatsMap → Option (Nat × Nat)
  | [] => none
  | (k, e) :: rest => if k = key then some e else lookupStat key rest

/-- The mutation performed by `Storage::insert_stat` on the `stats` map:
if the key is present, `entry.0 += 1` (wrapping `u32` addition) and
`entry.1 = now`; otherwise insert `(1, now)`. -/
def bumpStat (key : String) (now : Nat) : StatsMap → StatsMap
  | [] => [(key, (1, now))]
  | (k, e) :: rest =>
    if k = key then (k, ((e.1 + 1) % u32Mod, now)) :: rest
    else (k, e) :: bumpStat key now rest

/-- `struct Storage` of src/main.rs. -/
structure Storage where
  users : UsersMap
  stats : StatsMap
  deriving DecidableEq, Repr

/-- `Storage::new`. -/
def Storage.new : Storage := { users := [], stats := [] }

/-- `Storage::long_name_of`: the stored `long_name` for a known id, else the
decimal rendering of the id (`format!("{}", user_id)`). -/
def Storage.long_name_of (s : Storage) (user_id : Nat) : String :=
  match lookupUser user_id s.users with
  | some user => user.long_name
  | none => toString user_id

/-- The payload variant of `MeshPacket` (`mesh_packet::PayloadVariant`):
either decoded application data or an opaque encrypted payload. -/
inductive MeshPayloadVariant where
  | decoded (portnum : Int) (payload : List Nat)
  | encrypted (bytes : List Nat)
  deriving DecidableEq, Repr

/-- The fields of the protobuf `MeshPacket` that the program reads.
`rx_snr` is an `f32` used only inside a `println!`; it is omitted because
floating point is outside the model and no property depends on it. -/
structure MeshPacket where
  from' : Nat
  to' : Nat
  payload_variant : Option MeshPayloadVariant
  hop_limit : Nat
  hop_start : Nat
  deriving DecidableEq, Repr

/-- The stats key built at line 68 of src/main.rs:
`format!("{}:{}", self.long_name_of(mesh_packet.from), info)`. -/
def statKeyOf (s : Storage) (mp : MeshPacket) (info : String) : String :=
  s.long_name_of mp.from' ++ ":" ++ info

/-- `Storage::insert_stat`, with the wall clock passed explicitly as `now`
(the program reads `SystemTime::now()`). -/
def Storage.insert_stat (s : Storage) (mp : MeshPacket) (info : String) (now : Nat) : Storage :=
  { s with stats := bumpStat (statKeyOf s mp info) now s.stats }

/-- The subset of protobuf `PortNum` values that the program's `match`
distinguishes; every other known variant lands in the wildcard arm exactly
like `routingApp` and `adminApp` do, so they are represented by these. -/
inductive PortNum where
  | unknownApp
  | textMessageApp
  | remoteHardwareApp
  | positionApp
  | nodeinfoApp
  | routingApp
  | adminApp
  deriving DecidableEq, Repr

/-- `PortNum::try_from(i32)` on the modelled variants (prost protobuf enum
values: UNKNOWN_APP = 0, TEXT_MESSAGE_APP = 1, ..., ADMIN_APP = 6). -/
def PortNum.tryFrom (n : Int) : Option PortNum :=
  if n = 0 then some .unknownApp
  else if n = 1 then some .textMessageApp
  else if n = 2 then some .remoteHardwareApp
  else if n = 3 then some .positionApp
  else if n = 4 then some .nodeinfoApp
  else if n = 5 then some .routingApp
  else if n = 6 then some .adminApp
  else none

/-- `PortNum::as_str_name`. -/
def PortNum.as_str_name : PortNum → String
  | .unknownApp => "UNKNOWN_APP"
  | .textMessageApp => "TEXT_MESSAGE_APP"
  | .remoteHardwareApp => "REMOTE_HARDWARE_APP"
  | .positionApp => "POSITION_APP"
  | .nodeinfoApp => "NODEINFO_APP"
  | .routingApp => "ROUTING_APP"
  | .adminApp => "ADMIN_APP"

/-- External decode boundaries consumed by the dispatch loop:
`String::from_utf8` on a text payload and protobuf `User::decode` on a
nodeinfo payload.  The embedding quantifies over their behaviour. -/
structure Codecs where
  utf8 : List Nat → Option String
  decodeUser : List Nat → Option User

/-- The info computation of src/main.rs lines 218-246: classify the packet's
payload variant and port, producing the possibly-updated storage (the
`NodeinfoApp` arm inserts the decoded user at key `mesh_packet.from`) and
the info label string. -/
def processPacket (c : Codecs) (s : Storage) (mp : MeshPacket) : Storage × String :=
  match mp.payload_variant with
  | some (.decoded portnum payload) =>
    match (PortNum.tryFrom portnum).getD .unknownApp with
    | .textMessageApp =>
      (s, "TextMessageApp: " ++ ((c.utf8 payload).getD "Non-utf8 msg"))
    | .nodeinfoApp =>
      match c.decodeUser payload with
      | some u => ({ s with users := insertUser mp.from' u s.users }, "NodeinfoApp: " ++ u.long_name)
      | none => (s, "NodeInfoDecodeErr")
    | p => (s, p.as_str_name)
  | some (.encrypted _) => (s, "Encrypted")
  | none => (s, "")

/-- The destination rendering of src/main.rs lines 253-257: the broadcast
address `0xffffffff` renders as the literal `"Broadcast"` without consulting
the directory; any other address goes through `long_name_of`. -/
def renderTo (s : Storage) (to' : Nat) : String :=
  if to' = 0xffffffff then "Broadcast" else s.long_name_of to'

/-- The top-level payload variant of a decoded `FromRadio` event
(`from_radio::PayloadVariant`): a node-info record, a mesh packet, or any
of the other variants, all of which fall into the `_ => {}` arm. -/
inductive FromRadioPayloadVariant where
  | nodeInfo (num : Nat) (user : Option User)
  | packet (mp : MeshPacket)
  | otherVariant
  deriving DecidableEq, Repr

/-- One iteration's worth of external world: the decoded event delivered by
`decoded_listener.recv()` ("payload" is its optional `payload_variant`),
the wall-clock second `SystemTime::now()` would report, whether the
60-second stats-print timer has elapsed, and whether the snapshot write
`storage.save(..)` would succeed this iteration. -/
structure Event where
  payload : Option FromRadioPayloadVariant
  now : Nat
  over60 : Bool
  saveOk : Bool
  deriving DecidableEq, Repr

/-- The error categories that `main` can return through `?`. -/
inductive MainErr where
  | loadErr
  | scanErr
  | openErr
  | configureErr
  | sendErr
  | saveErr
  | disconnectErr
  deriving DecidableEq, Repr

/-- The observable state carried across loop iterations: the in-memory
`Storage`, the snapshot file's contents (as the parsed snapshot it holds,
`none` when no valid snapshot file exists), the trace of printed
`network>` lines as (fromName, toName, info) triples, and how many times
the periodic `print_stats` ran. -/
structure LoopState where
  storage : Storage
  file : Option Storage
  netPrints : List (String × String × String)
  statPrints : Nat
  deriving DecidableEq, Repr

/-- One iteration of the `while let Some(decoded) = ...` loop
(src/main.rs lines 206-272).  An event with no payload, a `NodeInfo`
without a user, or an other-variant event leaves the state unchanged.
A `NodeInfo` with a user inserts it into the directory — and nothing else:
no save.  A `Packet` event classifies the payload, records the stat, prints
the network line, runs `print_stats` when the timer elapsed, and then
attempts `storage.save(..)?`: on failure the `?` aborts the loop with the
error. -/
def step (c : Codecs) (st : LoopState) (ev : Event) : Except (MainErr × LoopState) LoopState :=
  match ev.payload with
  | none => .ok st
  | some (.nodeInfo num ouser) =>
    match ouser with
    | some user => .ok { st with storage := { st.storage with users := insertUser num user st.storage.users } }
    | none => .ok st
  | some .otherVariant => .ok st
  | some (.packet mp) =>
    let pi := processPacket c st.storage mp
    let s2 := Storage.insert_stat pi.1 mp pi.2 ev.now
    let prints2 := st.netPrints ++ [(s2.long_name_of mp.from', renderTo s2 mp.to', pi.2)]
    let sp2 := if ev.over60 then st.statPrints + 1 else st.statPrints
    let st2 : LoopState := { storage := s2, file := st.file, netPrints := prints2, statPrints := sp2 }
    if ev.saveOk then .ok { st2 with file := some s2 } else .error (.saveErr, st2)

/-- The receive loop over a finite trace of events; an exhausted trace
models the stream closing (`recv()` returning `None`), which exits the
loop normally.  A step error aborts the loop at once, discarding the rest
of the trace, and is reported together with the state at that point. -/
def runLoop (c : Codecs) : LoopState → List Event → LoopState × Option MainErr
  | st, [] => (st, none)
  | st, ev :: rest =>
    match step c st ev with
    | .ok st' => runLoop c st' rest
    | .error (e, st') => (st', some e)

/-- `Storage::load` with the file system and serde modelled explicitly:
`file` is the file's contents when `File::open` succeeds (any open failure,
e.g. an absent file, is `none`), and `parse` is `serde_json::from_reader`.
An unopenable file yields the empty storage; an openable file that fails to
parse propagates the serde error through `?`. -/
def loadStorage (file : Option String) (parse : String → Option Storage) : Except MainErr Storage :=
  match file with
  | some contents =>
    match parse contents with
    | some s => .ok s
    | none => .error .loadErr
  | none => .ok Storage.new

/-- The external world consumed by one execution of `main`: the snapshot
file and its parser, the optional CLI argument naming the BLE device,
success oracles for the BLE scan, stream open, configure handshake,
initial `send_to_meshtastic` and final disconnect, the codecs, and the
finite trace of received events. -/
structure Env where
  codecs : Codecs
  file : Option String
  parse : String → Option Storage
  bleArg : Option String
  scanOk : Bool
  openOk : Bool
  configOk : Bool
  sendOk : Bool
  events : List Event
  disconnectOk : Bool

/-- What the snapshot file holds when the loop starts: the parse of the
initial contents, if any. -/
def Env.initFile (env : Env) : Option Storage :=
  match env.file with
  | none => none
  | some contents => env.parse contents

/-- `main` (src/main.rs lines 171-282): load the snapshot (`?` aborts on a
corrupt file); with no CLI argument, scan and return; otherwise open the
BLE stream, configure, send the greeting (each `?` aborts on failure), run
the receive loop, and on normal loop exit disconnect (`?` aborts on
failure).  Returns the final loop state, if the loop was reached, and the
error `main` would return, if any. -/
def mainRun (env : Env) : Option LoopState × Option MainErr :=
  match loadStorage env.file env.parse with
  | .error _ => (none, some .loadErr)
  | .ok s0 =>
    match env.bleArg with
    | none => (none, if env.scanOk then none else some .scanErr)
    | some _ =>
      if env.openOk = false then (none, some .openErr)
      else if env.configOk = false then (none, some .configureErr)
      else if env.sendOk = false then (none, some .sendErr)
      else
        let r := runLoop env.codecs ⟨s0, env.initFile, [], 0⟩ env.events
        match r.2 with
        | some e => (some r.1, some e)
        | none => (some r.1, if env.disconnectOk then none else some .disconnectErr)

/-- The state component of a step outcome, whether or not the step
errored. -/
def stateOf (r : Except (MainErr × LoopState) LoopState) : LoopState :=
  match r with
  | .ok st => st
  | .error (_, st) => st

/-- An event whose payload is a mesh packet; exactly these events reach
`storage.save(..)` in the loop body. -/
def Event.isPacket (ev : Event) : Bool :=
  match ev.payload with
  | some (.packet _) => true
  | _ => false

/-- Every packet event in the trace has a succeeding save; equivalent to
the loop never hitting the `storage.save(..)?` error path. -/
def savesAllOk (evs : List Event) : Bool :=
  evs.all fun ev => !ev.isPacket || ev.saveOk

/-- `n` successive `insert_stat`-style updates of the same key, the `i`-th
call observing wall clock `ts i`. -/
def iterBump (key : String) (ts : Nat → Nat) : Nat → StatsMap → StatsMap
  | 0, st => st
  | n + 1, st => bumpStat key (ts n) (iterBump key ts n st)

/-! Concrete fixtures used to instantiate theorems. -/

/-- A sample directory record. -/
def aliceUser : User := { id := "a1", long_name := "Alice", short_name := "Al" }

/-- A second sample directory record with a different display name. -/
def bobUser : User := { id := "a1", long_name := "Bob", short_name := "Bo" }

/-- Concrete codecs: a UTF-8 decoder determined on the byte strings for
"hi" and "yo" (agreeing there with `String::from_utf8`), and a user decoder
that accepts nothing. -/
def codecsW : Codecs :=
  { utf8 := fun bs => if bs = [104, 105] then some "hi"
      else if bs = [121, 111] then some "yo" else none,
    decodeUser := fun _ => none }

/-- A broadcast text-message packet from node 7 carrying the given bytes. -/
def textPacket (payload : List Nat) : MeshPacket :=
  { from' := 7, to' := 0xffffffff, payload_variant := some (.decoded 1 payload),
    hop_limit := 3, hop_start := 3 }

/-- An encrypted packet from node 5 to node 9. -/
def encPacket : MeshPacket :=
  { from' := 5, to' := 9, payload_variant := some (.encrypted [1, 2, 3]),
    hop_limit := 3, hop_start := 3 }

/-- An encrypted packet from node 7 to node 9. -/
def encPacket7 : MeshPacket :=
  { from' := 7, to' := 9, payload_variant := some (.encrypted [1, 2, 3]),
    hop_limit := 3, hop_start := 3 }

/-- A storage whose directory knows node 7 as Alice and whose stats are
empty. -/
def aliceDir : Storage := { users := [(7, aliceUser)], stats := [] }

/-- A `NodeInfo` event announcing node 7 as Alice. -/
def evNodeInfoAlice : Event :=
  { payload := some (.nodeInfo 7 (some aliceUser)), now := 90, over60 := false, saveOk := true }

/-- A text packet event ("hi" from node 7) at time 100 with a succeeding
save. -/
def evHi : Event :=
  { payload := some (.packet (textPacket [104, 105])), now := 100, over60 := false, saveOk := true }

/-- A text packet event ("yo" from node 7) at time 110 with a succeeding
save. -/
def evYo : Event :=
  { payload := some (.packet (textPacket [121, 111])), now := 110, over60 := false, saveOk := true }

/-- The same "hi" packet event but with a failing snapshot write. -/
def evHiSaveFail : Event :=
  { payload := some (.packet (textPacket [104, 105])), now := 100, over60 := false, saveOk := false }

/-- The loop state right after a fresh start with no snapshot file. -/
def st0 : LoopState := { storage := Storage.new, file := none, netPrints := [], statPrints := 0 }

/-- An environment whose run goes cleanly: empty start, one node-info and
one text event, every external operation succeeding. -/
def envOkW : Env :=
  { codecs := codecsW, file := none, parse := fun _ => none, bleArg := some "radio",
    scanOk := true, openOk := true, configOk := true, sendOk := true,
    events := [evNodeInfoAlice, evHi], disconnectOk := true }

/-- The same environment except that the text event's snapshot write
fails. -/
def envSaveFailW : Env :=
  { envOkW with events := [evNodeInfoAlice, evHiSaveFail, evYo] }

/-! Helper lemmas about the association-list maps. -/

/-- Looking up a key right after inserting it yields the inserted record. -/
theorem lookupUser_insertUser_self (n : Nat) (u : User) (m : UsersMap) :
    lookupUser n (insertUser n u m) = some u := by
  induction m with
  | nil => simp [insertUser, lookupUser]
  | cons kv rest ih =>
    by_cases hk : kv.1 = n
    · simp [insertUser, hk, lookupUser]
    · simp [insertUser, hk, lookupUser, ih]

/-- Inserting one key does not change lookups of another. -/
theorem lookupUser_insertUser_other (n n' : Nat) (u : User) (m : UsersMap) (h : n' ≠ n) :
    lookupUser n' (insertUser n u m) = lookupUser n' m := by
  induction m with
  | nil => simp [insertUser, lookupUser, Ne.symm h]
  | cons kv rest ih =>
    rcases kv with ⟨k, v⟩
    by_cases hk : k = n
    · subst hk
      simp [insertUser, lookupUser, Ne.symm h]
    · simp [insertUser, hk, lookupUser, ih]

/-- Bumping an absent key inserts count 1 with the current time. -/
theorem lookupStat_bumpStat_self_of_none (key : String) (now : Nat) (st : StatsMap)
    (h : lookupStat key st = none) :
    lookupStat key (bumpStat key now st) = some (1, now) := by
  induction st with
  | nil => simp [bumpStat, lookupStat]
  | cons kv rest ih =>
    rcases kv with ⟨k, e⟩
    by_cases hk : k = key
    · simp [lookupStat, hk] at h
    · simp only [lookupStat, hk, if_false] at h
      simp [bumpStat, hk, lookupStat, ih h]

/-- Bumping a present key adds 1 (wrapping at `2 ^ 32`) and overwrites the
timestamp. -/
theorem lookupStat_bumpStat_self_of_some (key : String) (now : Nat) (st : StatsMap)
    (c t : Nat) (h : lookupStat key st = some (c, t)) :
    lookupStat key (bumpStat key now st) = some ((c + 1) % u32Mod, now) := by
  induction st with
  | nil => simp [lookupStat] at h
  | cons kv rest ih =>
    rcases kv with ⟨k, e⟩
    by_cases hk : k = key
    · simp only [lookupStat, hk, if_pos rfl] at h
      cases h
      simp [bumpStat, hk, lookupStat]
    · simp only [lookupStat, hk, if_false] at h
      simp [bumpStat, hk, lookupStat, ih h]

/-- Bumping one key does not change lookups of another. -/
theorem lookupStat_bumpStat_other (k key : String) (now : Nat) (st : StatsMap)
    (h : k ≠ key) :
    lookupStat k (bumpStat key now st) = lookupStat k st := by
  induction st with
  | nil => simp [bumpStat, lookupStat, Ne.symm h]
  | cons kv rest ih =>
    rcases kv with ⟨k', e⟩
    by_cases hk : k' = key
    · subst hk
      simp [bumpStat, lookupStat, Ne.symm h]
    · simp [bumpStat, hk, lookupStat, ih]

/-- Appending the same string on the right preserves distinctness. -/
theorem append_right_ne (a b c : String) (h : a ≠ b) : a ++ c ≠ b ++ c := by
  intro he
  apply h
  have hd : (a ++ c).data = (b ++ c).data := by rw [he]
  simp only [String.data_append] at hd
  exact String.ext (List.append_cancel_right hd)

/-- After `n ≥ 1` bumps of a key absent from the initial map, the key holds
count `n % 2 ^ 32` and the timestamp of the final (`(n-1)`-th) call. -/
theorem lookupStat_iterBump (key : String) (ts : Nat → Nat) (st : StatsMap)
    (h : lookupStat key st = none) :
    ∀ n : Nat, 0 < n →
      lookupStat key (iterBump key ts n st) = some (n % u32Mod, ts (n - 1)) := by
  intro n
  induction n with
  | zero => intro hc; exact absurd hc (by simp)
  | succ m ih =>
    intro _
    rcases Nat.eq_zero_or_pos m with hm | hm
    · subst hm
      simpa [iterBump, u32Mod] using lookupStat_bumpStat_self_of_none key (ts 0) st h
    · have hl := ih hm
      have := lookupStat_bumpStat_self_of_some key (ts m) (iterBump key ts m st)
        (m % u32Mod) (ts (m - 1)) hl
      rw [iterBump, this]
      have hmod : (m % u32Mod + 1) % u32Mod = (m + 1) % u32Mod := by
        simp only [u32Mod]
        omega
      simp [hmod]

/-- The loop exits without error exactly when every packet event's snapshot
write succeeds; no other event shape can produce an error. -/
theorem runLoop_snd_eq_none_iff (c : Codecs) :
    ∀ (evs : List Event) (st : LoopState),
      (runLoop c st evs).2 = none ↔ savesAllOk evs = true := by
  intro evs
  induction evs with
  | nil => intro st; simp [runLoop, savesAllOk]
  | cons ev rest ih =>
    intro st
    rcases ev with ⟨pl, now, o60, sOk⟩
    rcases pl with _ | pv
    · simp [runLoop, step, savesAllOk, Event.isPacket, List.all_cons] at ih ⊢
      exact ih _
    · cases pv with
      | nodeInfo num ouser =>
        cases ouser with
        | none =>
          simp [runLoop, step, savesAllOk, Event.isPacket, List.all_cons] at ih ⊢
          exact ih _
        | some user =>
          simp [runLoop, step, savesAllOk, Event.isPacket, List.all_cons] at ih ⊢
          exact ih _
      | otherVariant =>
        simp [runLoop, step, savesAllOk, Event.isPacket, List.all_cons] at ih ⊢
        exact ih _
      | packet mp =>
        cases sOk with
        | false => simp [runLoop, step, savesAllOk, Event.isPacket, List.all_cons]
        | true =>
          simp [runLoop, step, savesAllOk, Event.isPacket, List.all_cons] at ih ⊢
          exact ih _

/-! Claim theorems. -/

/-- C8: for every node id `n` not yet in the directory, `long_name_of`
returns the decimal string of `n`; after inserting a record with long name
`L` for `n`, it returns `L`.  It is a total `String`-valued function, so it
cannot fail or return an error value. -/
theorem directory_lookup_decimal_then_upsert (s : Storage) (n : Nat) (u : User)
    (h : lookupUser n s.users = none) :
    s.long_name_of n = toString n
    ∧ Storage.long_name_of { s with users := insertUser n u s.users } n = u.long_name := by
  constructor
  · simp [Storage.long_name_of, h]
  · simp [Storage.long_name_of, lookupUser_insertUser_self]

/-- Witness for C8 at `n = 7`, upserting Alice into the empty directory. -/
theorem directory_lookup_decimal_then_upsert_witness :
    Storage.long_name_of Storage.new 7 = toString 7
    ∧ Storage.long_name_of
        { Storage.new with users := insertUser 7 aliceUser Storage.new.users } 7
      = aliceUser.long_name :=
  directory_lookup_decimal_then_upsert Storage.new 7 aliceUser (by decide)

/-- C7 counterexample: the broadcast destination renders as `"Broadcast"`,
not as the claimed literal `"BROADCAST"`. -/
theorem broadcast_literal_case_cex :
    renderTo Storage.new 0xffffffff = "Broadcast"
    ∧ renderTo Storage.new 0xffffffff ≠ "BROADCAST" := by
  constructor
  · rfl
  · decide

/-- C7 (amended): a packet destined to the all-bits-set address
`0xffffffff` renders as the literal `"Broadcast"` (capitalised this way),
the directory is never consulted for the sentinel — even a directory record
stored under the sentinel key cannot change the rendering — and every other
destination goes through `long_name_of`. -/
theorem broadcast_renders_literal (s : Storage) (u : User) (t : Nat)
    (ht : t ≠ 0xffffffff) :
    renderTo s 0xffffffff = "Broadcast"
    ∧ renderTo { s with users := insertUser 0xffffffff u s.users } 0xffffffff = "Broadcast"
    ∧ renderTo s t = s.long_name_of t := by
  refine ⟨rfl, rfl, ?_⟩
  simp [renderTo, ht]

/-- Witness for C7 (amended) with a record stored under the sentinel and a
non-broadcast destination 9. -/
theorem broadcast_renders_literal_witness :
    renderTo Storage.new 0xffffffff = "Broadcast"
    ∧ renderTo { Storage.new with users := insertUser 0xffffffff aliceUser Storage.new.users }
        0xffffffff = "Broadcast"
    ∧ renderTo Storage.new 9 = Storage.new.long_name_of 9 :=
  broadcast_renders_literal Storage.new aliceUser 9 (by decide)

/-- C4 counterexample: a snapshot file that opens but does not parse makes
`Storage::load` return an error (the `?` on `serde_json::from_reader`)
instead of the empty state. -/
theorem load_corrupt_returns_error_cex :
    loadStorage (some "garbage") (fun _ => none) = .error .loadErr
    ∧ loadStorage (some "garbage") (fun _ => none) ≠ .ok Storage.new := by
  constructor
  · rfl
  · intro h
    simp [loadStorage] at h

/-- C4 (amended): an absent (unopenable) snapshot file makes load return
the empty state, but an openable file whose contents fail to parse makes
load return an error — which `main` propagates at startup; a file that
parses loads the parsed state. -/
theorem load_absent_empty_corrupt_error (parse : String → Option Storage)
    (contents : String) (s : Storage) :
    loadStorage none parse = .ok Storage.new
    ∧ (parse contents = none → loadStorage (some contents) parse = .error .loadErr)
    ∧ (parse contents = some s → loadStorage (some contents) parse = .ok s) := by
  refine ⟨rfl, ?_, ?_⟩ <;> intro h <;> simp [loadStorage, h]

/-- Witness for C4 (amended) with a parser that rejects everything. -/
theorem load_absent_empty_corrupt_error_witness :
    loadStorage none (fun _ => none) = .ok Storage.new
    ∧ loadStorage (some "bad") (fun _ => none) = .error .loadErr :=
  ⟨(load_absent_empty_corrupt_error (fun _ => none) "bad" Storage.new).1,
   (load_absent_empty_corrupt_error (fun _ => none) "bad" Storage.new).2.1 rfl⟩

/-- C9 counterexample: the count field is a wrapping `u32`, so after
`2 ^ 32` increments of a fresh key the entry holds count 0, not `2 ^ 32`. -/
theorem increment_count_wraps_cex :
    lookupStat "k" (iterBump "k" (fun _ => 0) u32Mod []) = some (0, 0)
    ∧ (u32Mod : Nat) ≠ 0 := by
  constructor
  · have h := lookupStat_iterBump "k" (fun _ => 0) [] (by simp [lookupStat])
      u32Mod (by decide)
    simpa using h
  · decide

/-- C9 (amended): the first increment of a fresh key inserts count 1 with
the current timestamp, each later increment adds 1 modulo `2 ^ 32` and
overwrites the timestamp, and after `n < 2 ^ 32` increments the entry
holds count `n` and the timestamp of the final call. -/
theorem increment_repeated_counts (key : String) (ts : Nat → Nat) (n : Nat)
    (h1 : 0 < n) (h2 : n < u32Mod) :
    (∀ st now, lookupStat key st = none →
      lookupStat key (bumpStat key now st) = some (1, now))
    ∧ (∀ st now c t, lookupStat key st = some (c, t) →
      lookupStat key (bumpStat key now st) = some ((c + 1) % u32Mod, now))
    ∧ lookupStat key (iterBump key ts n []) = some (n, ts (n - 1)) := by
  refine ⟨fun st now h => lookupStat_bumpStat_self_of_none key now st h,
    fun st now c t h => lookupStat_bumpStat_self_of_some key now st c t h, ?_⟩
  have h := lookupStat_iterBump key ts [] (by simp [lookupStat]) n h1
  rwa [Nat.mod_eq_of_lt h2] at h

/-- Witness for C9 (amended): three increments of key "k", each at time 5,
yield count 3 with last-seen 5. -/
theorem increment_repeated_counts_witness :
    lookupStat "k" (iterBump "k" (fun _ => 5) 3 []) = some (3, 5) :=
  (increment_repeated_counts "k" (fun _ => 5) 3 (by decide) (by decide)).2.2

/-- C10: the stats key is built from the sender's display name as resolved
at the moment the stat is recorded; after an upsert changes the sender's
long name, an otherwise-identical packet produces a different key, and two
such packets split their counts across two entries of count 1 each. -/
theorem stat_key_follows_directory (s : Storage) (n : Nat) (u1 u2 : User)
    (info : String) (mp : MeshPacket) (t1 t2 : Nat)
    (hmp : mp.from' = n)
    (h1 : lookupUser n s.users = some u1)
    (h2 : u1.long_name ≠ u2.long_name)
    (h3 : lookupStat (u1.long_name ++ ":" ++ info) s.stats = none)
    (h4 : lookupStat (u2.long_name ++ ":" ++ info) s.stats = none) :
    statKeyOf s mp info = u1.long_name ++ ":" ++ info
    ∧ statKeyOf { s with users := insertUser n u2 s.users } mp info
        = u2.long_name ++ ":" ++ info
    ∧ statKeyOf s mp info ≠ statKeyOf { s with users := insertUser n u2 s.users } mp info
    ∧ lookupStat (u1.long_name ++ ":" ++ info)
        (Storage.insert_stat
          { Storage.insert_stat s mp info t1 with
            users := insertUser n u2 (Storage.insert_stat s mp info t1).users }
          mp info t2).stats = some (1, t1)
    ∧ lookupStat (u2.long_name ++ ":" ++ info)
        (Storage.insert_stat
          { Storage.insert_stat s mp info t1 with
            users := insertUser n u2 (Storage.insert_stat s mp info t1).users }
          mp info t2).stats = some (1, t2) := by
  have hkey1 : statKeyOf s mp info = u1.long_name ++ ":" ++ info := by
    simp [statKeyOf, Storage.long_name_of, hmp, h1]
  have hkey2 : statKeyOf { s with users := insertUser n u2 s.users } mp info
      = u2.long_name ++ ":" ++ info := by
    simp [statKeyOf, Storage.long_name_of, hmp, lookupUser_insertUser_self]
  have hne : u1.long_name ++ ":" ++ info ≠ u2.long_name ++ ":" ++ info :=
    append_right_ne _ _ info (append_right_ne _ _ ":" h2)
  have hkey2' : statKeyOf
      { Storage.insert_stat s mp info t1 with
        users := insertUser n u2 (Storage.insert_stat s mp info t1).users } mp info
      = u2.long_name ++ ":" ++ info := by
    simp [statKeyOf, Storage.long_name_of, hmp, Storage.insert_stat,
      lookupUser_insertUser_self]
  refine ⟨hkey1, hkey2, by rw [hkey1, hkey2]; exact hne, ?_, ?_⟩
  · rw [Storage.insert_stat, hkey2']
    simp only [Storage.insert_stat, hkey1]
    rw [lookupStat_bumpStat_other _ _ _ _ hne]
    exact lookupStat_bumpStat_self_of_none _ _ _ h3
  · rw [Storage.insert_stat, hkey2']
    simp only [Storage.insert_stat, hkey1]
    apply lookupStat_bumpStat_self_of_none
    rw [lookupStat_bumpStat_other _ _ _ _ (Ne.symm hne)]
    exact h4

/-- Witness for C10: Alice renamed to Bob between two identical Encrypted
packets from node 7 yields the two keys "Alice:Enc" and "Bob:Enc", each
with count 1. -/
theorem stat_key_follows_directory_witness :
    statKeyOf aliceDir encPacket7 "Enc" = aliceUser.long_name ++ ":" ++ "Enc"
    ∧ statKeyOf { aliceDir with users := insertUser 7 bobUser aliceDir.users }
        encPacket7 "Enc" = bobUser.long_name ++ ":" ++ "Enc"
    ∧ statKeyOf aliceDir encPacket7 "Enc"
      ≠ statKeyOf { aliceDir with users := insertUser 7 bobUser aliceDir.users } encPacket7 "Enc"
    ∧ lookupStat (aliceUser.long_name ++ ":" ++ "Enc")
        (Storage.insert_stat
          { Storage.insert_stat aliceDir encPacket7 "Enc" 100 with
            users := insertUser 7 bobUser (Storage.insert_stat aliceDir encPacket7 "Enc" 100).users }
          encPacket7 "Enc" 110).stats = some (1, 100)
    ∧ lookupStat (bobUser.long_name ++ ":" ++ "Enc")
        (Storage.insert_stat
          { Storage.insert_stat aliceDir encPacket7 "Enc" 100 with
            users := insertUser 7 bobUser (Storage.insert_stat aliceDir encPacket7 "Enc" 100).users }
          encPacket7 "Enc" 110).stats = some (1, 110) :=
  stat_key_follows_directory aliceDir 7 aliceUser bobUser
    "Enc" encPacket7 100 110 rfl (by decide) (by decide) (by decide) (by decide)

/-- C2 counterexample: an Encrypted packet is not a no-op — it updates the
Stats map (key `"5:Encrypted"` gains count 1) even though the initial stats
were empty. -/
theorem encrypted_packet_stats_cex :
    ((step codecsW st0
        { payload := some (.packet encPacket), now := 50, over60 := false, saveOk := true }).toOption.map
      fun s => s.storage.stats) = some [("5:Encrypted", (1, 50))]
    ∧ st0.storage.stats = [] := by
  constructor <;> rfl

/-- C2 (amended): an Encrypted packet produces no Directory update, but the
loop still records a stat under the key `long_name_of(from) ++ ":Encrypted"`
and prints a network line for the packet; there is no archival log in the
program. -/
theorem encrypted_packet_effects (c : Codecs) (st : LoopState) (mp : MeshPacket)
    (bs : List Nat) (now : Nat) (o60 sOk : Bool)
    (h : mp.payload_variant = some (.encrypted bs)) :
    processPacket c st.storage mp = (st.storage, "Encrypted")
    ∧ (stateOf (step c st ⟨some (.packet mp), now, o60, sOk⟩)).storage.users
        = st.storage.users
    ∧ (stateOf (step c st ⟨some (.packet mp), now, o60, sOk⟩)).storage.stats
        = bumpStat (st.storage.long_name_of mp.from' ++ ":" ++ "Encrypted") now st.storage.stats
    ∧ (stateOf (step c st ⟨some (.packet mp), now, o60, sOk⟩)).netPrints
        = st.netPrints
          ++ [(Storage.long_name_of (Storage.insert_stat st.storage mp "Encrypted" now) mp.from',
               renderTo (Storage.insert_stat st.storage mp "Encrypted" now) mp.to',
               "Encrypted")] := by
  cases sOk <;>
    simp [step, processPacket, h, stateOf, Storage.insert_stat, statKeyOf]

/-- Witness for C2 (amended) on a concrete encrypted packet from node 5. -/
theorem encrypted_packet_effects_witness :
    processPacket codecsW st0.storage encPacket = (st0.storage, "Encrypted")
    ∧ (stateOf (step codecsW st0 ⟨some (.packet encPacket), 50, false, true⟩)).storage.users
        = st0.storage.users
    ∧ (stateOf (step codecsW st0 ⟨some (.packet encPacket), 50, false, true⟩)).storage.stats
        = bumpStat (st0.storage.long_name_of encPacket.from' ++ ":" ++ "Encrypted") 50
            st0.storage.stats
    ∧ (stateOf (step codecsW st0 ⟨some (.packet encPacket), 50, false, true⟩)).netPrints
        = st0.netPrints
          ++ [(Storage.long_name_of (Storage.insert_stat st0.storage encPacket "Encrypted" 50)
                 encPacket.from',
               renderTo (Storage.insert_stat st0.storage encPacket "Encrypted" 50) encPacket.to',
               "Encrypted")] :=
  encrypted_packet_effects codecsW st0 encPacket [1, 2, 3] 50 false true rfl

/-- C3 counterexample: a failed snapshot write aborts the loop with the
persistence error, and the following node-info event is never processed
(the directory stays empty). -/
theorem save_failure_halts_processing_cex :
    (runLoop codecsW st0 [evHiSaveFail, evNodeInfoAlice]).2 = some .saveErr
    ∧ (runLoop codecsW st0 [evHiSaveFail, evNodeInfoAlice]).1.storage.users = [] := by
  constructor <;> rfl

/-- C3 (amended): a failed snapshot write is not merely logged — the `?` on
`storage.save(..)` aborts the receive loop at once with the persistence
error, independently of whatever events would have followed. -/
theorem save_failure_aborts_loop (c : Codecs) (st : LoopState) (mp : MeshPacket)
    (now : Nat) (o60 : Bool) (rest1 rest2 : List Event) :
    (runLoop c st (⟨some (.packet mp), now, o60, false⟩ :: rest1)).2 = some .saveErr
    ∧ runLoop c st (⟨some (.packet mp), now, o60, false⟩ :: rest1)
      = runLoop c st (⟨some (.packet mp), now, o60, false⟩ :: rest2) := by
  constructor <;> simp [runLoop, step]

/-- C5 counterexample: a node-info event mutates the directory but the
snapshot file is not rewritten (it still holds no snapshot), so the
mutation is not persisted before the loop resumes waiting. -/
theorem nodeinfo_mutation_without_save_cex :
    ((step codecsW st0 evNodeInfoAlice).toOption.map fun s => (s.storage.users, s.file))
      = some ([(7, aliceUser)], none)
    ∧ (none : Option Storage) ≠ some { users := [(7, aliceUser)], stats := [] } := by
  constructor
  · rfl
  · decide

/-- C5 (amended): after every Packet event whose save succeeds, the file
holds exactly the freshly mutated snapshot before the loop resumes; but a
Directory upsert triggered by a NodeInfoEvent is not followed by any write
— the step only mutates the in-memory directory and leaves the file as it
was. -/
theorem snapshot_written_after_packet_only (c : Codecs) (st : LoopState)
    (mp : MeshPacket) (now t2 : Nat) (o60 o2 s2 : Bool) (num : Nat) (u : User) :
    (stateOf (step c st ⟨some (.packet mp), now, o60, true⟩)).file
      = some (stateOf (step c st ⟨some (.packet mp), now, o60, true⟩)).storage
    ∧ step c st ⟨some (.nodeInfo num (some u)), t2, o2, s2⟩
      = .ok { st with storage := { st.storage with users := insertUser num u st.storage.users } } := by
  constructor
  · simp [step, stateOf]
  · rfl

/-- C6 counterexample: two text messages "hi" then "yo" from Alice land in
two different stats keys (the key embeds the message text), each with
count 1 — no key ever reaches count 2. -/
theorem text_messages_no_shared_key_cex :
    ((runLoop codecsW st0 [evNodeInfoAlice, evHi, evYo]).1.storage.stats)
      = [("Alice:TextMessageApp: hi", (1, 100)), ("Alice:TextMessageApp: yo", (1, 110))]
    ∧ (((runLoop codecsW st0 [evNodeInfoAlice, evHi, evYo]).1.storage.stats).all
        fun kv => kv.2.1 == 1) = true := by
  constructor <;> decide

/-- C6 (amended): two Decoded TextMessage packets from the known sender
Alice with payloads "hi" then "yo" increment two different stats keys,
`"Alice:TextMessageApp: hi"` and `"Alice:TextMessageApp: yo"` — the key
includes the message text — each holding count 1 and its own event's
timestamp. -/
theorem text_messages_distinct_keys (t1 t2 : Nat) :
    ((runLoop codecsW st0 [evNodeInfoAlice,
        { payload := some (.packet (textPacket [104, 105])), now := t1, over60 := false,
          saveOk := true },
        { payload := some (.packet (textPacket [121, 111])), now := t2, over60 := false,
          saveOk := true }]).1.storage.stats)
    = [("Alice:TextMessageApp: hi", (1, t1)), ("Alice:TextMessageApp: yo", (1, t2))] := rfl

/-- C1 counterexample: a single failed snapshot write, with every other
external operation succeeding and no cancellation anywhere in the program,
makes `main` return the persistence error — the run terminates on a
transient fault instead of retrying. -/
theorem run_fault_terminates_cex :
    (mainRun envSaveFailW).2 = some .saveErr := by rfl

/-- C1 (amended): when startup succeeds (`loadStorage` ok, a device
argument present), the run terminates without error exactly when the
stream open, configure handshake, greeting send, every packet event's
snapshot write, and the final disconnect all succeed; any such failure
makes `main` return its error — there is no retry and no cancellation
mechanism, and stream closure ends the loop normally. -/
theorem run_terminates_on_fault (env : Env) (d : String) (s0 : Storage)
    (hload : loadStorage env.file env.parse = .ok s0)
    (harg : env.bleArg = some d) :
    (mainRun env).2 = none
      ↔ env.openOk = true ∧ env.configOk = true ∧ env.sendOk = true
        ∧ savesAllOk env.events = true ∧ env.disconnectOk = true := by
  have hsaves := runLoop_snd_eq_none_iff env.codecs env.events ⟨s0, env.initFile, [], 0⟩
  unfold mainRun
  rw [hload, harg]
  cases hopen : env.openOk
  · simp
  · cases hcfg : env.configOk
    · simp
    · cases hsend : env.sendOk
      · simp
      · cases hr2 : (runLoop env.codecs ⟨s0, env.initFile, [], 0⟩ env.events).2 with
        | some e =>
          rw [hr2] at hsaves
          simp at hsaves
          simp [hr2, hsaves]
        | none =>
          rw [hr2] at hsaves
          simp at hsaves
          cases hdisc : env.disconnectOk
          · simp [hr2, hsaves, hdisc]
          · simp [hr2, hsaves, hdisc]

/-- Witness for C1 (amended) on an environment whose run goes cleanly. -/
theorem run_terminates_on_fault_witness :
    (mainRun envOkW).2 = none
      ↔ envOkW.openOk = true ∧ envOkW.configOk = true ∧ envOkW.sendOk = true
        ∧ savesAllOk envOkW.events = true ∧ envOkW.disconnectOk = true :=
  run_terminates_on_fault envOkW "radio" Storage.new rfl rfl

end Mbbs
